import Mathlib

/-!
Verification of the probe engine of the `http-watchdog` repository
(`src/http_watchdog.py`, package layout under `src/`), shallowly embedded in
Lean.  Pure helpers (`_detect_response_charset`, `_dissect_and_escape_url`,
the pattern loop of `probe`) are translated directly; the effectful parts of
`_fetch_page` / `probe` / `run_forever` are embedded as deterministic
functions of an explicit environment describing what the network and the
clock do during one fetch.  The Python `str` methods the code relies on
(`split` with a one-character separator, `strip`, `lower`, `in`) are modelled
by structural functions on the character list of a `String`, so that every
definition evaluates inside the kernel.
-/

namespace HttpWatchdogModel

/-- One step of Python `str.split` with a single-character separator:
splitting keeps empty parts, and splitting the empty string yields one empty
part. -/
def split_char (sep : Char) : List Char → List (List Char)
  | [] => [[]]
  | c :: rest =>
    match split_char sep rest with
    | [] => [[]]
    | h :: t => if c = sep then [] :: h :: t else (c :: h) :: t

/-- Python `s.split(sep)` for a one-character `sep` (the only form the code
uses: separators `;`, `=`, `:`). -/
def py_split (sep : Char) (s : String) : List String :=
  (split_char sep s.data).map String.mk

/-- Python `s.strip()` on the whitespace the inputs here contain (space, tab,
carriage return, newline). -/
def strip_chars (l : List Char) : List Char :=
  ((l.dropWhile Char.isWhitespace).reverse.dropWhile Char.isWhitespace).reverse

/-- Python `s.strip()`. -/
def py_strip (s : String) : String :=
  String.mk (strip_chars s.data)

/-- Python `s.lower()` restricted to ASCII letters, the only characters
compared against the ASCII literal `charset` by the code. -/
def py_lower (s : String) : String :=
  String.mk (s.data.map Char.toLower)

/-- Python `c in s` for a single character. -/
def py_contains (s : String) (c : Char) : Bool :=
  s.data.contains c

/-- A Python exception as observed by the fetch code: its message
(`str(exception)`) and whether its type is one of the classes excluded from
the generic handler of `_fetch_page` (AssertionError, TypeError, SyntaxError,
ValueError), which the code re-raises instead of converting. -/
structure Exc where
  isDefect : Bool
  msg : String
deriving DecidableEq

/-- The five probe outcomes of `probe_result.py` (class `ProbeResult`). -/
inductive ProbeResult where
  | MATCH
  | NO_MATCH
  | HTTP_ERROR
  | CONNECTION_ERROR
  | NOT_PROBED_YET
deriving DecidableEq

/-- Message of the `CharsetDetectionError` raised by
`_detect_response_charset` (the `.format(content_type)` call appends the
header value). -/
def dup_charset_msg (ct : String) : String :=
  "Found multiple charset fields in the Content-Type header: " ++ ct

/-- Loop body of `_detect_response_charset`: iterate over the `;`-separated
fields, split each on `=`, and treat a field as a charset declaration when
the split yields exactly two tokens and the first one, stripped and
lower-cased, is `charset`.  A second declaration raises
`CharsetDetectionError`; errors are modelled as `Except.error` carrying the
exception message. -/
def detect_loop (ct : String) : List String → Option String → Except String (Option String)
  | [], result => .ok result
  | field :: rest, result =>
    match py_split '=' field with
    | [k, v] =>
      if py_lower (py_strip k) = "charset" then
        match result with
        | some _ => .error (dup_charset_msg ct)
        | none => detect_loop ct rest (some (py_strip v))
      else detect_loop ct rest result
    | _ => detect_loop ct rest result

/-- `HttpWatchdog._detect_response_charset`: extracts the declared charset
from a `Content-Type` header value (`none` models a Python `None` argument,
i.e. an absent header). -/
def detect_response_charset (content_type : Option String) : Except String (Option String) :=
  match content_type with
  | none => .ok none
  | some ct => detect_loop ct (py_split ';' ct) none

/-- Declarative reading of one `;`-field used to state claim C3: the field is
a charset declaration exactly when splitting on `=` yields a key equal
(stripped, case-folded) to `charset` and a value; the value is returned
stripped, case preserved. -/
def charset_decl_of_field (field : String) : Option String :=
  match py_split '=' field with
  | [k, v] => if py_lower (py_strip k) = "charset" then some (py_strip v) else none
  | _ => none

/-- All charset declarations of a header value, in field order. -/
def charset_decls (ct : String) : List String :=
  (py_split ';' ct).filterMap charset_decl_of_field

/-- Outcome of the detection loop as a function of the accumulator and the
remaining declarations (used only as an induction vehicle). -/
def detect_outcome (ct : String) (acc : Option String) (decls : List String) :
    Except String (Option String) :=
  match acc, decls with
  | none, [] => .ok none
  | none, [v] => .ok (some v)
  | none, _ :: _ :: _ => .error (dup_charset_msg ct)
  | some a, [] => .ok (some a)
  | some _, _ :: _ => .error (dup_charset_msg ct)

theorem detect_loop_eq_outcome (ct : String) (fields : List String) :
    ∀ acc, detect_loop ct fields acc =
      detect_outcome ct acc (fields.filterMap charset_decl_of_field) := by
  induction fields with
  | nil => intro acc; cases acc <;> rfl
  | cons field rest ih =>
    intro acc
    simp only [List.filterMap_cons]
    rcases hs : py_split '=' field with _ | ⟨k, _ | ⟨v, _ | _⟩⟩ <;>
      simp only [detect_loop, charset_decl_of_field, hs]
    · exact ih acc
    · exact ih acc
    · by_cases hk : py_lower (py_strip k) = "charset"
      · simp only [hk, if_pos rfl, if_true]
        cases acc with
        | none =>
          rw [ih (some (py_strip v))]
          rcases hd : rest.filterMap charset_decl_of_field with _ | ⟨w, ws⟩ <;>
            simp [detect_outcome, hd]
        | some a => rfl
      · simp only [if_neg hk]
        exact ih acc
    · exact ih acc

/-- C3: charset detection splits the header on `;` and each field on `=`;
exactly one charset declaration returns its value stripped with original
case, none (or an absent header) returns absence, and two or more raise
`CharsetDetectionError`. -/
theorem C3_charset_detection (ct : String) :
    detect_response_charset none = .ok none
    ∧ (charset_decls ct = [] → detect_response_charset (some ct) = .ok none)
    ∧ (∀ v, charset_decls ct = [v] → detect_response_charset (some ct) = .ok (some v))
    ∧ (∀ v w rest, charset_decls ct = v :: w :: rest →
        detect_response_charset (some ct) = .error (dup_charset_msg ct)) := by
  have hmain : detect_response_charset (some ct) =
      detect_outcome ct none (charset_decls ct) := by
    simp [detect_response_charset, detect_loop_eq_outcome, charset_decls]
  refine ⟨rfl, ?_, ?_, ?_⟩
  · intro h0; rw [hmain, h0]; rfl
  · intro v h1; rw [hmain, h1]; rfl
  · intro v w rest h2; rw [hmain, h2]; rfl

/-- Witness for C3 at a concrete header with one charset declaration (mixed
case key, value case preserved). -/
theorem C3_charset_detection_witness :
    detect_response_charset (some "text/html; Charset=UTF-8") = .ok (some "UTF-8") :=
  (C3_charset_detection "text/html; Charset=UTF-8").2.2.1 "UTF-8" rfl

/-- Result of `urllib.parse.urlparse` restricted to the components
`_dissect_and_escape_url` and `_fetch_page` read (the `params` component and
userinfo are never used by the code). -/
structure ParsedUrl where
  scheme : String
  netloc : String
  path : String
  query : String
  fragment : String

/-- Value of one decimal digit run. -/
def digits_val (l : List Char) : Nat :=
  l.foldl (fun a c => a * 10 + (c.toNat - 48)) 0

/-- Models CPython `int(str)` on ASCII decimal literals: optional surrounding
whitespace, an optional single sign, then one or more ASCII digits.  Forms
CPython additionally accepts (underscore separators, non-ASCII digits) do not
occur in the inputs exercised here; everything else raises `ValueError`,
which is one of the excluded defect classes. -/
def py_int (s : String) : Except Exc Int :=
  match (py_strip s).data with
  | '+' :: ds =>
    if ds ≠ [] ∧ ds.all Char.isDigit then .ok (digits_val ds)
    else .error ⟨true, "invalid literal for int() with base 10: " ++ s⟩
  | '-' :: ds =>
    if ds ≠ [] ∧ ds.all Char.isDigit then .ok (-(digits_val ds : Int))
    else .error ⟨true, "invalid literal for int() with base 10: " ++ s⟩
  | ds =>
    if ds ≠ [] ∧ ds.all Char.isDigit then .ok (digits_val ds)
    else .error ⟨true, "invalid literal for int() with base 10: " ++ s⟩

/-- Lines 70-74 of `_dissect_and_escape_url`: when the authority contains no
`:` the port is empty, otherwise `host, port = netloc.split(':')`, whose
two-variable unpacking raises `ValueError` when the split yields more than
two parts (an authority with two or more colons). -/
def split_host_port (netloc : String) : Except Exc (String × String) :=
  if py_contains netloc ':' = false then .ok (netloc, "")
  else
    match py_split ':' netloc with
    | [h, p] => .ok (h, p)
    | _ => .error ⟨true, "too many values to unpack (expected 2)"⟩

/-- The `DEFAULT_PORTS` dictionary lookup, defined after the assertion that
the scheme is `http` or `https`. -/
def scheme_default_port (scheme : String) : Int :=
  if scheme = "http" then 80 else 443

/-- UTF-8 encoding of one code point, as byte values. -/
def utf8_bytes_of_char (c : Char) : List Nat :=
  let n := c.toNat
  if n < 0x80 then [n]
  else if n < 0x800 then [0xC0 + n / 0x40, 0x80 + n % 0x40]
  else if n < 0x10000 then
    [0xE0 + n / 0x1000, 0x80 + (n / 0x40) % 0x40, 0x80 + n % 0x40]
  else
    [0xF0 + n / 0x40000, 0x80 + (n / 0x1000) % 0x40, 0x80 + (n / 0x40) % 0x40,
     0x80 + n % 0x40]

/-- UTF-8 bytes of a string (Python `quote` encodes its argument to UTF-8
before percent-escaping). -/
def utf8_bytes (s : String) : List Nat :=
  s.data.flatMap utf8_bytes_of_char

/-- The byte values `urllib.parse.quote(s, '=&?/')` leaves unescaped: the
always-safe set (ASCII letters, digits, `_`, `.`, `-`, `~`) together with the
extra safe characters `=`, `&`, `?`, `/` passed by the code. -/
def quote_safe_byte (b : Nat) : Bool :=
  decide ((65 ≤ b ∧ b ≤ 90) ∨ (97 ≤ b ∧ b ≤ 122) ∨ (48 ≤ b ∧ b ≤ 57)
    ∨ b = 95 ∨ b = 46 ∨ b = 45 ∨ b = 126 ∨ b = 61 ∨ b = 38 ∨ b = 63 ∨ b = 47)

/-- Upper-case hexadecimal digit. -/
def hex_digit (n : Nat) : Char :=
  if n < 10 then Char.ofNat (48 + n) else Char.ofNat (55 + n)

/-- Percent-escape of one byte, upper-case hex as produced by `quote`. -/
def percent_hex (b : Nat) : String :=
  "%" ++ String.singleton (hex_digit (b / 16)) ++ String.singleton (hex_digit (b % 16))

/-- Translation of one byte under `quote`. -/
def quote_byte (b : Nat) : String :=
  if quote_safe_byte b then String.singleton (Char.ofNat b) else percent_hex b

/-- `urllib.parse.quote(s, '=&?/')` as called on the path-and-query. -/
def urllib_quote (s : String) : String :=
  String.join ((utf8_bytes s).map quote_byte)

/-- `HttpWatchdog._dissect_and_escape_url`.  The host conversion
`host.encode('idna').decode('ascii')` is a stdlib codec outside this
repository, so it is passed in as the environment function `idna` (it may
raise, e.g. `UnicodeError` on malformed labels). -/
def dissect_and_escape_url (idna : String → Except Exc String) (u : ParsedUrl) :
    Except Exc (String × Int × String) :=
  if u.scheme = "http" ∨ u.scheme = "https" then
    match split_host_port u.netloc with
    | .error e => .error e
    | .ok (host, portStr) =>
      match (if portStr = "" then .ok (scheme_default_port u.scheme) else py_int portStr) with
      | .error e => .error e
      | .ok port =>
        match idna host with
        | .error e => .error e
        | .ok escaped_host =>
          .ok (escaped_host, port,
            urllib_quote ((if u.path = "" then "/" else u.path) ++
              (if u.query = "" then "" else "?" ++ u.query)))
  else .error ⟨true, "Unsupported protocols should not pass through validation performed earlier"⟩

/-- An identity host encoding, usable as the `idna` environment for inputs
whose host is plain ASCII lower-case (on which the codec acts as the
identity). -/
def idna_id : String → Except Exc String := fun s => .ok s

/-- C4 counterexample: for an authority containing two colons the code does
not split host from port at the first colon; the two-variable unpacking of
`netloc.split(':')` raises `ValueError` (a defect-class exception), so no
host/port pair is produced at all. -/
theorem C4_counterexample :
    dissect_and_escape_url idna_id ⟨"http", "example.com:80:90", "/x", "", ""⟩
      = .error ⟨true, "too many values to unpack (expected 2)"⟩ := rfl

/-- C4 (amended): for every parsed URL with scheme http or https, when the
authority contains no `:` the scheme's default port (80 for http, 443 for
https) is used; when it splits at its sole `:` into a host and a non-empty
integer port that port is used, and an empty port after the `:` again gives
the default; the path defaults to `/` when empty; the query is appended with
a single literal `?` exactly when present; the fragment is discarded.
Authorities with two or more `:` raise `ValueError` instead of being split
(see the counterexample). -/
theorem C4_url_dissection (idna : String → Except Exc String) (u : ParsedUrl)
    (eh : String) (hs : u.scheme = "http" ∨ u.scheme = "https") :
    (py_contains u.netloc ':' = false → idna u.netloc = .ok eh →
      dissect_and_escape_url idna u =
        .ok (eh, (if u.scheme = "http" then 80 else 443),
          urllib_quote ((if u.path = "" then "/" else u.path) ++
            (if u.query = "" then "" else "?" ++ u.query))))
    ∧ (∀ h, py_contains u.netloc ':' = true → py_split ':' u.netloc = [h, ""] →
        idna h = .ok eh →
        dissect_and_escape_url idna u =
          .ok (eh, (if u.scheme = "http" then 80 else 443),
            urllib_quote ((if u.path = "" then "/" else u.path) ++
              (if u.query = "" then "" else "?" ++ u.query))))
    ∧ (∀ h p k, py_contains u.netloc ':' = true → py_split ':' u.netloc = [h, p] →
        p ≠ "" → py_int p = .ok k → idna h = .ok eh →
        dissect_and_escape_url idna u =
          .ok (eh, k,
            urllib_quote ((if u.path = "" then "/" else u.path) ++
              (if u.query = "" then "" else "?" ++ u.query))))
    ∧ (∀ f, dissect_and_escape_url idna u =
        dissect_and_escape_url idna ⟨u.scheme, u.netloc, u.path, u.query, f⟩) := by
  refine ⟨?_, ?_, ?_, ?_⟩
  · intro hc hi
    unfold dissect_and_escape_url
    rw [if_pos hs]
    simp [split_host_port, hc, hi, scheme_default_port]
  · intro h hc hsp hi
    unfold dissect_and_escape_url
    rw [if_pos hs]
    simp [split_host_port, hc, hsp, hi, scheme_default_port]
  · intro h p k hc hsp hp hk hi
    unfold dissect_and_escape_url
    rw [if_pos hs]
    simp [split_host_port, hc, hsp, hp, hk, hi]
  · intro f; cases u; rfl

/-- Witness for C4 (amended) at a concrete URL with an explicit port, a
query and a fragment. -/
theorem C4_url_dissection_witness :
    dissect_and_escape_url idna_id ⟨"http", "google.pl:81", "/test", "a=b&c=d", "frag"⟩
      = .ok ("google.pl", 81, "/test?a=b&c=d") := by
  have h := (C4_url_dissection idna_id ⟨"http", "google.pl:81", "/test", "a=b&c=d", "frag"⟩
      "google.pl" (Or.inl rfl)).2.2.1 "google.pl" "81" 81 rfl rfl (by decide) rfl rfl
  exact h.trans rfl

/-- C5: the host component of a successful dissection is exactly the
idna-encoded host, and the path-and-query component is `quote` of the
path-and-query with safe set `=&?/`: a byte outside the safe set is always
escaped as `%XX`, a safe byte is kept verbatim, the structural characters
`=`, `&`, `?`, `/` are in the safe set, and every non-ASCII byte is outside
it (hence always escaped). -/
theorem C5_host_idna_and_escaping (idna : String → Except Exc String) (u : ParsedUrl)
    (eh : String) (hs : u.scheme = "http" ∨ u.scheme = "https") :
    (∀ host portStr port, split_host_port u.netloc = .ok (host, portStr) →
      (if portStr = "" then Except.ok (scheme_default_port u.scheme) else py_int portStr)
        = .ok port →
      idna host = .ok eh →
      dissect_and_escape_url idna u =
        .ok (eh, port,
          urllib_quote ((if u.path = "" then "/" else u.path) ++
            (if u.query = "" then "" else "?" ++ u.query))))
    ∧ (∀ b, quote_safe_byte b = false → quote_byte b = percent_hex b)
    ∧ (∀ b, quote_safe_byte b = true → quote_byte b = String.singleton (Char.ofNat b))
    ∧ (quote_safe_byte 61 = true ∧ quote_safe_byte 38 = true
        ∧ quote_safe_byte 63 = true ∧ quote_safe_byte 47 = true)
    ∧ (∀ b, 128 ≤ b → quote_safe_byte b = false) := by
  refine ⟨?_, ?_, ?_, by decide, ?_⟩
  · intro host portStr port hsp hport hi
    unfold dissect_and_escape_url
    rw [if_pos hs]
    simp [hsp, hport, hi]
  · intro b hb; simp [quote_byte, hb]
  · intro b hb; simp [quote_byte, hb]
  · intro b hb
    simp only [quote_safe_byte, decide_eq_false_iff_not]
    omega

/-- Witness for C5: a default-port https URL whose safe characters pass
through `quote` unescaped, and the escaping of an unsafe byte (space). -/
theorem C5_host_idna_and_escaping_witness :
    dissect_and_escape_url idna_id ⟨"https", "host", "", "x=1&y=2", ""⟩
      = .ok ("host", 443, "/?x=1&y=2")
    ∧ quote_byte 32 = "%20" := by
  constructor
  · exact ((C5_host_idna_and_escaping idna_id ⟨"https", "host", "", "x=1&y=2", ""⟩
      "host" (Or.inr rfl)).1 "host" "" 443 rfl rfl rfl).trans rfl
  · exact ((C5_host_idna_and_escaping idna_id ⟨"https", "host", "", "x=1&y=2", ""⟩
      "host" (Or.inr rfl)).2.1 32 rfl).trans rfl

/-- Compiled regular expression as used by the probe loop: only its search
behaviour is relevant here.  `search content` returns the start position of
the first match and `none` when there is no match (models
`re.Pattern.search`, whose engine is outside this repository). -/
structure Regex where
  search : String → Option Nat

/-- The pattern loop of `HttpWatchdog.probe`: `pattern_found` starts `True`,
is conjoined with each search outcome, and the loop breaks at the first
pattern with no match. -/
def pattern_found : List Regex → String → Bool
  | [], _ => true
  | r :: rest, content =>
    match r.search content with
    | none => false
    | some _ => pattern_found rest content

/-- What the network does during one call of `_fetch_page`: either the
`HTTPConnection` constructor raises before the first clock reading, or
`request`/`getresponse` raises between the two clock readings, or the round
trip completes with a status, a reason phrase, an optional `Content-Type`
header, and a body whose `read().decode(charset)` either yields a text or
raises, as a function of the charset name used. -/
inductive ConnEvent where
  | connectRaise (e : Exc)
  | requestRaise (e : Exc)
  | response (status : Nat) (reason : String) (content_type : Option String)
      (read_decode : String → Except Exc String)

/-- Environment of one fetch: the connection event, the values returned by
the two `time.time()` readings around the round trip (arbitrary: wall-clock
monotonicity is not assumed) and by `datetime.utcnow()` at the yield. -/
structure FetchEnv where
  event : ConnEvent
  tStart : Int
  tEnd : Int
  tNow : Int

/-- The tuple returned by `_fetch_page`. -/
structure FetchResult where
  page_content : Option String
  result : Option ProbeResult
  http_status : Option Nat
  reason : Option String
  start_time : Option Int
  end_time : Option Int
deriving DecidableEq

/-- Python `response_charset or 'utf-8'` (`None` and the empty string are
both falsy). -/
def charset_or_utf8 (cs : Option String) : String :=
  match cs with
  | none => "utf-8"
  | some s => if s = "" then "utf-8" else s

/-- `HttpWatchdog._fetch_page` after URL dissection: the `try` block runs
the connection, the round trip, and on a 200 status charset detection and
body decoding; exceptions of the excluded defect classes (AssertionError,
TypeError, SyntaxError, ValueError) are re-raised (`Except.error`), every
other exception is converted into a `CONNECTION_ERROR` tuple with
`reason = str(exception)` and `http_status` reset to `None`.  A
`CharsetDetectionError` is a plain `Exception` subclass, so it always takes
the generic branch. -/
def fetch_page (env : FetchEnv) : Except Exc FetchResult :=
  match env.event with
  | .connectRaise e =>
    if e.isDefect then .error e
    else .ok ⟨none, some .CONNECTION_ERROR, none, some e.msg, none, none⟩
  | .requestRaise e =>
    if e.isDefect then .error e
    else .ok ⟨none, some .CONNECTION_ERROR, none, some e.msg, some env.tStart, some env.tEnd⟩
  | .response status reason ct rd =>
    if status = 200 then
      match detect_response_charset ct with
      | .error m =>
        .ok ⟨none, some .CONNECTION_ERROR, none, some m, some env.tStart, some env.tEnd⟩
      | .ok cs =>
        match rd (charset_or_utf8 cs) with
        | .error e =>
          if e.isDefect then .error e
          else .ok ⟨none, some .CONNECTION_ERROR, none, some e.msg,
            some env.tStart, some env.tEnd⟩
        | .ok content =>
          .ok ⟨some content, none, some status, some reason, some env.tStart, some env.tEnd⟩
    else .ok ⟨none, none, some status, some reason, some env.tStart, some env.tEnd⟩

/-- Verdict assignment in `HttpWatchdog.probe`: a fetch-provided verdict is
adopted as-is; otherwise a 200 status runs the pattern loop (after the
`assert page_content != None`), any other status is `HTTP_ERROR`. -/
def classify_result (fr : FetchResult) (regexes : List Regex) : Except Exc ProbeResult :=
  match fr.result with
  | some r => .ok r
  | none =>
    if fr.http_status = some 200 then
      match fr.page_content with
      | none => .error ⟨true, "AssertionError"⟩
      | some content => .ok (if pattern_found regexes content then .MATCH else .NO_MATCH)
    else .ok .HTTP_ERROR

/-- The `assert start_time == None and end_time == None or end_time >=
start_time` before the yield: comparing `None` with a float raises
`TypeError` and a failed comparison raises `AssertionError`, both defect
classes. -/
def check_time_assert (s e : Option Int) : Except Exc Unit :=
  match s, e with
  | none, none => .ok ()
  | some a, some b => if a ≤ b then .ok () else .error ⟨true, "AssertionError"⟩
  | _, _ => .error ⟨true, "TypeError"⟩

/-- `request_duration = end_time - start_time if end_time != None else None`
in the yielded dict (subtracting `None` would raise `TypeError`). -/
def request_duration_of (s e : Option Int) : Except Exc (Option Int) :=
  match e with
  | none => .ok none
  | some b =>
    match s with
    | some a => .ok (some (b - a))
    | none => .error ⟨true, "TypeError"⟩

/-- The dict yielded by `HttpWatchdog.probe` for one page (`last_probed_at`
is the `datetime.utcnow()` reading). -/
structure ProbeRecord where
  result : ProbeResult
  http_status : Option Nat
  reason : Option String
  last_probed_at : Int
  request_duration : Option Int
deriving DecidableEq

/-- One iteration of `HttpWatchdog.probe` for a single page: fetch, classify
the verdict, check the timing assertion and yield the record. -/
def probe_page (env : FetchEnv) (regexes : List Regex) : Except Exc ProbeRecord :=
  match fetch_page env with
  | .error e => .error e
  | .ok fr =>
    match classify_result fr regexes with
    | .error e => .error e
    | .ok result =>
      match check_time_assert fr.start_time fr.end_time with
      | .error e => .error e
      | .ok _ =>
        match request_duration_of fr.start_time fr.end_time with
        | .error e => .error e
        | .ok dur => .ok ⟨result, fr.http_status, fr.reason, env.tNow, dur⟩

/-- Whether the round trip (`request` plus `getresponse`) completed, i.e. a
response was received. -/
def round_trip_completed (ev : ConnEvent) : Bool :=
  match ev with
  | .response .. => true
  | _ => false

/-- Whether a request was ever issued (everything after the `HTTPConnection`
constructor). -/
def request_issued (ev : ConnEvent) : Bool :=
  match ev with
  | .connectRaise _ => false
  | _ => true

/-- A pattern that matches everywhere (used only in witnesses). -/
def always_match : Regex := ⟨fun _ => some 0⟩

/-- A pattern that matches nowhere (used only in witnesses). -/
def never_match : Regex := ⟨fun _ => none⟩

/-- C6: the pattern loop yields a match exactly when every pattern in the
sequence finds at least one match somewhere in the content (search
semantics); the empty sequence vacuously matches; and on a successful 200
fetch the probe verdict is `MATCH`/`NO_MATCH` according to the loop. -/
theorem C6_pattern_matcher (regexes : List Regex) (content : String) :
    (pattern_found regexes content = true
      ↔ ∀ r ∈ regexes, (r.search content).isSome = true)
    ∧ pattern_found [] content = true
    ∧ (∀ reason rd t0 t1 tn, t0 ≤ t1 → rd "utf-8" = .ok content →
        probe_page ⟨.response 200 reason none rd, t0, t1, tn⟩ regexes
          = .ok ⟨if pattern_found regexes content then .MATCH else .NO_MATCH,
              some 200, some reason, tn, some (t1 - t0)⟩) := by
  refine ⟨?_, rfl, ?_⟩
  · induction regexes with
    | nil => simp [pattern_found]
    | cons r rest ih =>
      cases hr : r.search content <;>
        simp [pattern_found, hr, ih, Option.isSome]
  · intro reason rd t0 t1 tn ht hrd
    simp [probe_page, fetch_page, detect_response_charset, charset_or_utf8, hrd,
      classify_result, check_time_assert, request_duration_of, ht]

/-- Witness for C6: empty pattern sequence on a successful 200 fetch gives
`MATCH`. -/
theorem C6_pattern_matcher_witness :
    probe_page ⟨.response 200 "OK" none (fun _ => .ok "hello"), 0, 2, 9⟩ []
      = .ok ⟨.MATCH, some 200, some "OK", 9, some 2⟩ := by
  have h := (C6_pattern_matcher [] "hello").2.2 "OK" (fun _ => .ok "hello") 0 2 9
    (by decide) rfl
  exact h.trans rfl

/-- C7: the pattern loop short-circuits: whenever a pattern fails on the
content, the loop's outcome over any sequence containing it after a prefix
is `false` (`NO_MATCH`), and is unchanged when the patterns after that
failing one are replaced by any other patterns. -/
theorem pattern_found_fail_aux (r : Regex) (content : String)
    (hfail : r.search content = none) :
    ∀ pre post, pattern_found (pre ++ r :: post) content = false := by
  intro pre
  induction pre with
  | nil => intro post; simp [pattern_found, hfail]
  | cons q qs ih =>
    intro post
    cases hq : q.search content <;> simp [pattern_found, hq, ih]

/-- C7: the pattern loop short-circuits: whenever a pattern fails on the
content, the loop's outcome over any sequence containing it after a prefix
is `false` (`NO_MATCH`), and is unchanged when the patterns after that
failing one are replaced by any other patterns. -/
theorem C7_short_circuit (pre post post2 : List Regex) (r : Regex) (content : String)
    (hfail : r.search content = none) :
    pattern_found (pre ++ r :: post) content = false
    ∧ pattern_found (pre ++ r :: post) content
      = pattern_found (pre ++ r :: post2) content :=
  ⟨pattern_found_fail_aux r content hfail pre post,
   (pattern_found_fail_aux r content hfail pre post).trans
     (pattern_found_fail_aux r content hfail pre post2).symm⟩

/-- Witness for C7: a failing second pattern makes the outcome `false` and
insensitive to what comes after it. -/
theorem C7_short_circuit_witness :
    pattern_found [always_match, never_match, always_match] "abc" = false
    ∧ pattern_found [always_match, never_match, always_match] "abc"
      = pattern_found [always_match, never_match, never_match] "abc" :=
  C7_short_circuit [always_match] [always_match] [never_match] never_match "abc" rfl

/-- C1: a yielded probe verdict follows the strict precedence transport
failure, then non-200 status, then pattern outcome: an uncompleted round
trip yields `CONNECTION_ERROR` whatever the configured patterns; a completed
round trip with a status other than 200 yields `HTTP_ERROR` whatever the
body; and `MATCH`/`NO_MATCH` only ever arise from a 200 response. -/
theorem C1_verdict_precedence (env : FetchEnv) (regexes : List Regex) (r : ProbeRecord)
    (hp : probe_page env regexes = .ok r) :
    (round_trip_completed env.event = false → r.result = .CONNECTION_ERROR)
    ∧ (∀ status reason ct rd, env.event = .response status reason ct rd →
        status ≠ 200 → r.result = .HTTP_ERROR)
    ∧ (r.result = .MATCH ∨ r.result = .NO_MATCH →
        r.http_status = some 200
        ∧ ∃ reason ct rd, env.event = .response 200 reason ct rd) := by
  rcases env with ⟨ev, t0, t1, tn⟩
  cases ev with
  | connectRaise e =>
    by_cases hd : e.isDefect
    · simp [probe_page, fetch_page, hd] at hp
    · simp [probe_page, fetch_page, classify_result, check_time_assert,
        request_duration_of, hd] at hp
      subst hp
      refine ⟨fun _ => rfl, ?_, ?_⟩
      · intro status reason ct rd heq; simp at heq
      · intro h; rcases h with h | h <;> simp at h
  | requestRaise e =>
    by_cases hd : e.isDefect
    · simp [probe_page, fetch_page, hd] at hp
    · by_cases ht : t0 ≤ t1
      · simp [probe_page, fetch_page, classify_result, check_time_assert,
          request_duration_of, hd, ht] at hp
        subst hp
        refine ⟨fun _ => rfl, ?_, ?_⟩
        · intro status reason ct rd heq; simp at heq
        · intro h; rcases h with h | h <;> simp at h
      · simp [probe_page, fetch_page, classify_result, check_time_assert,
          request_duration_of, hd, ht] at hp
  | response status reason ct rd =>
    by_cases h200 : status = 200
    · subst h200
      cases hdet : detect_response_charset ct with
      | error m =>
        by_cases ht : t0 ≤ t1
        · simp [probe_page, fetch_page, hdet, classify_result, check_time_assert,
            request_duration_of, ht] at hp
          subst hp
          refine ⟨?_, ?_, ?_⟩
          · intro hrt; simp [round_trip_completed] at hrt
          · intro status2 reason2 ct2 rd2 heq hne
            injection heq with h1 h2 h3 h4
            exact absurd h1.symm hne
          · intro h; rcases h with h | h <;> simp at h
        · simp [probe_page, fetch_page, hdet, classify_result, check_time_assert,
            request_duration_of, ht] at hp
      | ok cs =>
        cases hrd : rd (charset_or_utf8 cs) with
        | error e2 =>
          by_cases hd : e2.isDefect
          · simp [probe_page, fetch_page, hdet, hrd, hd] at hp
          · by_cases ht : t0 ≤ t1
            · simp [probe_page, fetch_page, hdet, hrd, hd, classify_result,
                check_time_assert, request_duration_of, ht] at hp
              subst hp
              refine ⟨?_, ?_, ?_⟩
              · intro hrt; simp [round_trip_completed] at hrt
              · intro status2 reason2 ct2 rd2 heq hne
                injection heq with h1 h2 h3 h4
                exact absurd h1.symm hne
              · intro h; rcases h with h | h <;> simp at h
            · simp [probe_page, fetch_page, hdet, hrd, hd, classify_result,
                check_time_assert, request_duration_of, ht] at hp
        | ok content =>
          by_cases ht : t0 ≤ t1
          · simp [probe_page, fetch_page, hdet, hrd, classify_result,
              check_time_assert, request_duration_of, ht] at hp
            subst hp
            refine ⟨?_, ?_, ?_⟩
            · intro hrt; simp [round_trip_completed] at hrt
            · intro status2 reason2 ct2 rd2 heq hne
              injection heq with h1 h2 h3 h4
              exact absurd h1.symm hne
            · intro h; exact ⟨rfl, reason, ct, rd, rfl⟩
          · simp [probe_page, fetch_page, hdet, hrd, classify_result,
              check_time_assert, request_duration_of, ht] at hp
    · by_cases ht : t0 ≤ t1
      · simp [probe_page, fetch_page, h200, classify_result, check_time_assert,
          request_duration_of, ht] at hp
        subst hp
        refine ⟨?_, ?_, ?_⟩
        · intro hrt; simp [round_trip_completed] at hrt
        · intro status2 reason2 ct2 rd2 heq hne; rfl
        · intro h; rcases h with h | h <;> simp at h
      · simp [probe_page, fetch_page, h200, classify_result, check_time_assert,
          request_duration_of, ht] at hp

/-- Witness for C1: a transport failure during the round trip yields a
record whose verdict is `CONNECTION_ERROR`. -/
theorem C1_verdict_precedence_witness :
    probe_page ⟨.requestRaise ⟨false, "timed out"⟩, 0, 3, 7⟩ []
      = .ok ⟨.CONNECTION_ERROR, none, some "timed out", 7, some 3⟩
    ∧ (⟨.CONNECTION_ERROR, none, some "timed out", 7, some 3⟩ : ProbeRecord).result
      = .CONNECTION_ERROR := by
  refine ⟨rfl, ?_⟩
  exact (C1_verdict_precedence ⟨.requestRaise ⟨false, "timed out"⟩, 0, 3, 7⟩ []
    ⟨.CONNECTION_ERROR, none, some "timed out", 7, some 3⟩ rfl).1 rfl

/-- C2: during one fetch, a non-defect exception at any stage (connection
establishment, the round trip, or the 200 body handling) is caught and
converted into a result tuple with verdict `CONNECTION_ERROR`, `reason`
equal to `str(exception)` and `http_status` absent, while exceptions of the
excluded defect classes (AssertionError, TypeError, SyntaxError, ValueError)
are never caught there and always propagate out of `_fetch_page`. -/
theorem C2_exception_policy (env : FetchEnv) (e : Exc) :
    (env.event = .connectRaise e →
      (e.isDefect = false → fetch_page env
        = .ok ⟨none, some .CONNECTION_ERROR, none, some e.msg, none, none⟩)
      ∧ (e.isDefect = true → fetch_page env = .error e))
    ∧ (env.event = .requestRaise e →
      (e.isDefect = false → fetch_page env
        = .ok ⟨none, some .CONNECTION_ERROR, none, some e.msg,
            some env.tStart, some env.tEnd⟩)
      ∧ (e.isDefect = true → fetch_page env = .error e))
    ∧ (∀ reason ct rd cs, env.event = .response 200 reason ct rd →
        detect_response_charset ct = .ok cs →
        rd (charset_or_utf8 cs) = .error e →
        (e.isDefect = false → fetch_page env
          = .ok ⟨none, some .CONNECTION_ERROR, none, some e.msg,
              some env.tStart, some env.tEnd⟩)
        ∧ (e.isDefect = true → fetch_page env = .error e)) := by
  rcases env with ⟨ev, t0, t1, tn⟩
  refine ⟨?_, ?_, ?_⟩
  · rintro rfl
    exact ⟨fun hd => by simp [fetch_page, hd], fun hd => by simp [fetch_page, hd]⟩
  · rintro rfl
    exact ⟨fun hd => by simp [fetch_page, hd], fun hd => by simp [fetch_page, hd]⟩
  · rintro reason ct rd cs rfl hdet hrd
    exact ⟨fun hd => by simp [fetch_page, hdet, hrd, hd],
           fun hd => by simp [fetch_page, hdet, hrd, hd]⟩

/-- Witness for C2: a non-defect connection failure is converted into a
`CONNECTION_ERROR` tuple; a defect-class exception propagates. -/
theorem C2_exception_policy_witness :
    fetch_page ⟨.connectRaise ⟨false, "refused"⟩, 0, 0, 0⟩
      = .ok ⟨none, some .CONNECTION_ERROR, none, some "refused", none, none⟩
    ∧ fetch_page ⟨.connectRaise ⟨true, "bad type"⟩, 0, 0, 0⟩ = .error ⟨true, "bad type"⟩ :=
  ⟨((C2_exception_policy ⟨.connectRaise ⟨false, "refused"⟩, 0, 0, 0⟩
      ⟨false, "refused"⟩).1 rfl).1 rfl,
   ((C2_exception_policy ⟨.connectRaise ⟨true, "bad type"⟩, 0, 0, 0⟩
      ⟨true, "bad type"⟩).1 rfl).2 rfl⟩

/-- C9: for any fetch whose record is yielded, whenever both clock readings
are present in the fetch tuple the end time is at least the start time
(enforced by the assertion before the yield), and when no request was ever
issued both readings and the reported request duration are absent. -/
theorem C9_fetch_timing (env : FetchEnv) (regexes : List Regex) (r : ProbeRecord)
    (fr : FetchResult) (hp : probe_page env regexes = .ok r)
    (hf : fetch_page env = .ok fr) :
    (∀ s e, fr.start_time = some s → fr.end_time = some e → s ≤ e)
    ∧ (request_issued env.event = false →
        fr.start_time = none ∧ fr.end_time = none ∧ r.request_duration = none) := by
  rcases env with ⟨ev, t0, t1, tn⟩
  cases ev with
  | connectRaise e =>
    by_cases hd : e.isDefect
    · simp [fetch_page, hd] at hf
    · simp [probe_page, fetch_page, classify_result, check_time_assert,
        request_duration_of, hd] at hp hf
      subst hp
      subst hf
      refine ⟨?_, fun _ => ⟨rfl, rfl, rfl⟩⟩
      intro s e hs he
      simp at hs
  | requestRaise e =>
    by_cases hd : e.isDefect
    · simp [fetch_page, hd] at hf
    · by_cases ht : t0 ≤ t1
      · simp [probe_page, fetch_page, classify_result, check_time_assert,
          request_duration_of, hd, ht] at hp hf
        subst hp
        subst hf
        refine ⟨?_, ?_⟩
        · intro s e hs he
          simp at hs he
          omega
        · intro h; simp [request_issued] at h
      · simp [probe_page, fetch_page, classify_result, check_time_assert,
          request_duration_of, hd, ht] at hp
  | response status reason ct rd =>
    by_cases h200 : status = 200
    · subst h200
      cases hdet : detect_response_charset ct with
      | error m =>
        by_cases ht : t0 ≤ t1
        · simp [probe_page, fetch_page, hdet, classify_result, check_time_assert,
            request_duration_of, ht] at hp hf
          subst hp
          subst hf
          refine ⟨?_, ?_⟩
          · intro s e hs he
            simp at hs he
            omega
          · intro h; simp [request_issued] at h
        · simp [probe_page, fetch_page, hdet, classify_result, check_time_assert,
            request_duration_of, ht] at hp
      | ok cs =>
        cases hrd : rd (charset_or_utf8 cs) with
        | error e2 =>
          by_cases hd : e2.isDefect
          · simp [fetch_page, hdet, hrd, hd] at hf
          · by_cases ht : t0 ≤ t1
            · simp [probe_page, fetch_page, hdet, hrd, hd, classify_result,
                check_time_assert, request_duration_of, ht] at hp hf
              subst hp
              subst hf
              refine ⟨?_, ?_⟩
              · intro s e hs he
                simp at hs he
                omega
              · intro h; simp [request_issued] at h
            · simp [probe_page, fetch_page, hdet, hrd, hd, classify_result,
                check_time_assert, request_duration_of, ht] at hp
        | ok content =>
          by_cases ht : t0 ≤ t1
          · simp [probe_page, fetch_page, hdet, hrd, classify_result,
              check_time_assert, request_duration_of, ht] at hp hf
            subst hp
            subst hf
            refine ⟨?_, ?_⟩
            · intro s e hs he
              simp at hs he
              omega
            · intro h; simp [request_issued] at h
          · simp [probe_page, fetch_page, hdet, hrd, classify_result,
              check_time_assert, request_duration_of, ht] at hp
    · by_cases ht : t0 ≤ t1
      · simp [probe_page, fetch_page, h200, classify_result, check_time_assert,
          request_duration_of, ht] at hp hf
        subst hp
        subst hf
        refine ⟨?_, ?_⟩
        · intro s e hs he
          simp at hs he
          omega
        · intro h; simp [request_issued] at h
      · simp [probe_page, fetch_page, h200, classify_result, check_time_assert,
          request_duration_of, ht] at hp

/-- Witness for C9: a failure in the connection constructor means no request
was issued, so both clock readings and the reported duration are absent. -/
theorem C9_fetch_timing_witness :
    (⟨none, some .CONNECTION_ERROR, none, some "dns", none, none⟩
        : FetchResult).start_time = none
    ∧ (⟨none, some .CONNECTION_ERROR, none, some "dns", none, none⟩
        : FetchResult).end_time = none
    ∧ (⟨.CONNECTION_ERROR, none, some "dns", 5, none⟩
        : ProbeRecord).request_duration = none :=
  (C9_fetch_timing ⟨.connectRaise ⟨false, "dns"⟩, 0, 0, 5⟩ []
    ⟨.CONNECTION_ERROR, none, some "dns", 5, none⟩
    ⟨none, some .CONNECTION_ERROR, none, some "dns", none, none⟩ rfl rfl).2 rfl

/-- One compiled page configuration (`HttpWatchdog._page_configs` entry):
the URL and the compiled patterns, in order. -/
structure PageConfig where
  url : String
  regexes : List Regex

/-- The mutable state of a `HttpWatchdog` instance: the immutable compiled
page configurations and the result table `self._probe_results`. -/
structure WatchdogState where
  page_configs : List PageConfig
  probe_results : List (Option ProbeRecord)

/-- `HttpWatchdog.__init__`: compile each page's patterns in order
(`re.compile` is modelled by the environment function `compile`) and create
`[None] * len(self._page_configs)` result slots. -/
def init_watchdog (compile : String → Regex)
    (page_configs : List (String × List String)) : WatchdogState :=
  let cfgs := page_configs.map (fun pc => ⟨pc.1, pc.2.map compile⟩)
  ⟨cfgs, List.replicate cfgs.length none⟩

/-- `self._probe_results[i] = result` in `run_forever`: slot `i` is replaced
wholesale by the freshly constructed record. -/
def set_result (st : WatchdogState) (i : Nat) (r : ProbeRecord) : WatchdogState :=
  ⟨st.page_configs, st.probe_results.set i (some r)⟩

/-- The `for (i, result) in enumerate(self.probe())` loop of one sweep of
`run_forever`, with an empty cross-thread exception queue: each yielded
record replaces slot `i`; a propagated defect exception aborts the sweep and
is returned alongside the state reached. -/
def sweep_go (envs : Nat → FetchEnv) :
    Nat → List PageConfig → WatchdogState → WatchdogState × Option Exc
  | _, [], st => (st, none)
  | i, cfg :: rest, st =>
    match probe_page (envs i) cfg.regexes with
    | .error e => (st, some e)
    | .ok r => sweep_go envs (i + 1) rest (set_result st i r)

/-- One full sweep over the configured pages (`envs i` is what the network
and the clock do for page `i` during this sweep). -/
def run_sweep (envs : Nat → FetchEnv) (st : WatchdogState) : WatchdogState × Option Exc :=
  sweep_go envs 0 st.page_configs st

theorem sweep_go_preserves (envs : Nat → FetchEnv) (cfgs : List PageConfig) :
    ∀ i st, (sweep_go envs i cfgs st).1.probe_results.length = st.probe_results.length
      ∧ (sweep_go envs i cfgs st).1.page_configs = st.page_configs := by
  induction cfgs with
  | nil => intro i st; exact ⟨rfl, rfl⟩
  | cons cfg rest ih =>
    intro i st
    simp only [sweep_go]
    cases hpp : probe_page (envs i) cfg.regexes with
    | error e => exact ⟨rfl, rfl⟩
    | ok r =>
      refine ⟨?_, ?_⟩
      · rw [(ih (i + 1) (set_result st i r)).1]
        simp [set_result]
      · rw [(ih (i + 1) (set_result st i r)).2]
        rfl

theorem foldl_sweeps_length (sweeps : List (Nat → FetchEnv)) :
    ∀ st : WatchdogState,
      (sweeps.foldl (fun s e => (run_sweep e s).1) st).probe_results.length
        = st.probe_results.length := by
  induction sweeps with
  | nil => intro st; rfl
  | cons e es ih =>
    intro st
    simp only [List.foldl_cons]
    rw [ih ((run_sweep e st).1)]
    exact (sweep_go_preserves e st.page_configs 0 st).1

/-- C8: the result table has exactly one slot per configured page: its
length equals the length of the compiled page-config list at construction,
one sweep only replaces slots and never changes the length (or the page
configurations), and so the equality still holds after any number of
sweeps. -/
theorem C8_result_table_shape (compile : String → Regex)
    (page_configs : List (String × List String)) :
    (init_watchdog compile page_configs).probe_results.length
      = (init_watchdog compile page_configs).page_configs.length
    ∧ (init_watchdog compile page_configs).page_configs.length = page_configs.length
    ∧ (∀ envs st, (run_sweep envs st).1.probe_results.length = st.probe_results.length
        ∧ (run_sweep envs st).1.page_configs = st.page_configs)
    ∧ (∀ sweeps : List (Nat → FetchEnv),
        (sweeps.foldl (fun s e => (run_sweep e s).1)
          (init_watchdog compile page_configs)).probe_results.length
          = page_configs.length) := by
  refine ⟨by simp [init_watchdog], by simp [init_watchdog], ?_, ?_⟩
  · intro envs st
    exact sweep_go_preserves envs st.page_configs 0 st
  · intro sweeps
    rw [foldl_sweeps_length sweeps (init_watchdog compile page_configs)]
    simp [init_watchdog]

/-- C10: a `CharsetDetectionError` on a 200 response (ambiguous Content-Type
header) is caught by the generic handler of `_fetch_page` and recorded as
that page's result with verdict `CONNECTION_ERROR`, reason set to the error
message and `http_status` absent; the probe yields normally (no exception
propagates) and the sweep moves on to the next page. -/
theorem C10_charset_error_contained (ct m reason : String)
    (rd : String → Except Exc String) (t0 t1 tn : Int) (rs : List Regex)
    (hdet : detect_response_charset (some ct) = .error m) (ht : t0 ≤ t1) :
    fetch_page ⟨.response 200 reason (some ct) rd, t0, t1, tn⟩
      = .ok ⟨none, some .CONNECTION_ERROR, none, some m, some t0, some t1⟩
    ∧ probe_page ⟨.response 200 reason (some ct) rd, t0, t1, tn⟩ rs
      = .ok ⟨.CONNECTION_ERROR, none, some m, tn, some (t1 - t0)⟩
    ∧ (∀ (envs : Nat → FetchEnv) (i : Nat) (cfg : PageConfig)
        (rest : List PageConfig) (st : WatchdogState),
        envs i = ⟨.response 200 reason (some ct) rd, t0, t1, tn⟩ →
        cfg.regexes = rs →
        sweep_go envs i (cfg :: rest) st
          = sweep_go envs (i + 1) rest
              (set_result st i ⟨.CONNECTION_ERROR, none, some m, tn, some (t1 - t0)⟩)) := by
  have hf : fetch_page ⟨.response 200 reason (some ct) rd, t0, t1, tn⟩
      = .ok ⟨none, some .CONNECTION_ERROR, none, some m, some t0, some t1⟩ := by
    simp [fetch_page, hdet]
  have hpr : probe_page ⟨.response 200 reason (some ct) rd, t0, t1, tn⟩ rs
      = .ok ⟨.CONNECTION_ERROR, none, some m, tn, some (t1 - t0)⟩ := by
    simp [probe_page, hf, classify_result, check_time_assert, request_duration_of, ht]
  refine ⟨hf, hpr, ?_⟩
  intro envs i cfg rest st henv hcfg
  simp only [sweep_go, henv, hcfg, hpr]

/-- Witness for C10: an ambiguous header on a 200 response yields a
`CONNECTION_ERROR` record carrying the `CharsetDetectionError` message. -/
theorem C10_charset_error_contained_witness :
    probe_page ⟨.response 200 "OK" (some "a; charset=x; charset=y")
        (fun _ => .ok "body"), 0, 2, 4⟩ []
      = .ok ⟨.CONNECTION_ERROR, none,
          some (dup_charset_msg "a; charset=x; charset=y"), 4, some 2⟩ :=
  (C10_charset_error_contained "a; charset=x; charset=y"
    (dup_charset_msg "a; charset=x; charset=y") "OK" (fun _ => .ok "body")
    0 2 4 [] rfl (by decide)).2.1
